import Mathlib

/-!
# RyUnfair — verification of the compensation engine and notification lifecycle

Shallow embedding of the core of the RyUnfair repository:

* `calculateCompensation` (app.js) — the EU261/UK261 eligibility calculator;
* the notification trigger `schedule_followup_notifications`
  and the `pending_notifications` view (supabase/schema.sql);
* the completion path of the track-flight API handler (api/track-flight);
* the notification dispatcher (api/cron/send-notifications.ts).

JavaScript numbers are modelled as `ℚ` for distances and `ℤ` for delay
minutes; timestamps are seconds as `ℕ`; database varchar status/kind columns
are modelled as `String` with the literal values used by the source.
-/

namespace RyUnfair

/-- Currency marker: `eur` models the euro sign char of the source, `gbp` the pound sign. -/
inductive Currency
  | eur
  | gbp
deriving Repr, DecidableEq

/-- The compensation verdict returned by `calculateCompensation` in app.js.
The presentational `reason` string of the source is not modelled; the
`amount`, `currency` and `eligible` fields are carried verbatim. -/
structure Verdict where
  amount : ℤ
  currency : Currency
  eligible : Bool
deriving Repr, DecidableEq

/-- Embedding of `calculateCompensation(distanceKm, delayMinutes,
departureCountry, arrivalCountry)` from app.js lines 87–118.  The source is a
total JavaScript function with no input validation; the branch structure below
mirrors it exactly (the under-180 gate, UK currency switch on country code GB,
distance tiers `< 1500`, `<= 3500`, else with the `>= 240` long-haul split). -/
def calculateCompensation (distanceKm : ℚ) (delayMinutes : ℤ)
    (departureCountry arrivalCountry : String) : Verdict :=
  if delayMinutes < 180 then
    { amount := 0, currency := Currency.eur, eligible := false }
  else
    let isUkFlight := departureCountry == "GB" || arrivalCountry == "GB"
    { amount :=
        if distanceKm < 1500 then (if isUkFlight then 220 else 250)
        else if distanceKm ≤ 3500 then (if isUkFlight then 350 else 400)
        else if delayMinutes ≥ 240 then (if isUkFlight then 520 else 600)
        else (if isUkFlight then 260 else 300),
      currency := if isUkFlight then Currency.gbp else Currency.eur,
      eligible := true }

/-! ## Relational state (supabase/schema.sql)

Rows of the `users`, `tracked_flights` and `notifications` tables, with the
columns the claims touch.  Timestamps are seconds (`ℕ`); status and kind
columns keep the varchar literals of the source. -/

/-- A `users` row: `email_verified` and soft-delete flag (`deleted_at IS NOT
NULL` is modelled as `deleted = true`). -/
structure User where
  id : ℕ
  emailVerified : Bool
  deleted : Bool
deriving Repr, DecidableEq

/-- A `notifications` row.  `type` holds the kind tag
(`flight_result`, `followup_15d`, `followup_30d` or `verification`),
`status` one of `pending`, `sent`, `failed`, `cancelled`. -/
structure Notification where
  id : ℕ
  userId : ℕ
  flightId : Option ℕ
  type : String
  subject : String
  templateUsed : String
  status : String
  sentAt : Option ℕ
  externalId : Option String
  scheduledFor : ℕ
deriving Repr, DecidableEq

/-- A `tracked_flights` row (the columns the scheduling logic reads). -/
structure Flight where
  id : ℕ
  userId : ℕ
  flightNumber : String
  flightDate : String
  status : String
  compensationEligible : Bool
deriving Repr, DecidableEq

/-- The database state; `nextId` supplies fresh row ids for inserts. -/
structure DB where
  users : List User
  flights : List Flight
  notifications : List Notification
  nextId : ℕ
deriving Repr, DecidableEq

/-- One day in seconds, so that the 15-day SQL interval is `15 * day`. -/
def day : ℕ := 86400

/-- `INSERT INTO notifications` with a fresh id drawn from `nextId`. -/
def insertNotification (db : DB) (mk : ℕ → Notification) : DB :=
  { db with
    notifications := db.notifications ++ [mk db.nextId]
    nextId := db.nextId + 1 }

/-- Body of the plpgsql function `schedule_followup_notifications()`
(schema.sql lines 224–254): if the updated flight row has
status `completed` and `compensation_eligible`, insert the 15-day and
30-day follow-up notifications with the subjects and templates of the source.
There is no check for already-present records. -/
def scheduleFollowupNotifications (now : ℕ) (newRow : Flight) (db : DB) :
    DB :=
  if newRow.status == "completed" && newRow.compensationEligible then
    let db1 := insertNotification db (fun i =>
      { id := i, userId := newRow.userId, flightId := some newRow.id,
        type := "followup_15d",
        subject := "Did RyUnfair help you get compensation?",
        templateUsed := "followup_donation",
        status := "pending", sentAt := none, externalId := none,
        scheduledFor := now + 15 * day })
    insertNotification db1 (fun i =>
      { id := i, userId := newRow.userId, flightId := some newRow.id,
        type := "followup_30d",
        subject := "Last chance: Help us help others",
        templateUsed := "followup_donation_final",
        status := "pending", sentAt := none, externalId := none,
        scheduledFor := now + 30 * day })
  else db

/-- `UPDATE tracked_flights SET status = newStatus WHERE id = fid`, together
with the `schedule_followups` AFTER UPDATE trigger (schema.sql lines 257–261),
which fires per row when `OLD.status IS DISTINCT FROM NEW.status AND
NEW.status is completed`. -/
def updateFlightStatus (db : DB) (now fid : ℕ) (newStatus : String) : DB :=
  match db.flights.find? (fun f => f.id == fid) with
  | none => db
  | some f =>
    let f' := { f with status := newStatus }
    let db1 := { db with
      flights := db.flights.map (fun g => if g.id == fid then f' else g) }
    if f.status != newStatus && newStatus == "completed" then
      scheduleFollowupNotifications now f' db1
    else db1

/-- The flight payload of a `POST /api/track-flight` request (the fields the
completion path reads). -/
structure TrackReq where
  userId : ℕ
  flightNumber : String
  flightDate : String
  eligible : Bool
  compensationCurrency : String
  compensationAmount : ℤ
deriving Repr, DecidableEq

/-- Core of the `POST /api/track-flight` handler: upsert the tracked flight
on conflict `(user_id, flight_number, flight_date)` — an UPDATE of an existing
row fires the `schedule_followups` trigger when the status changes to
`completed`; an INSERT does not (the trigger is AFTER UPDATE only) — then,
if the request has status completed and an eligible verdict, insert
a `flight_result` notification scheduled immediately.  No check prevents a
duplicate `flight_result` row. -/
def trackFlight (db : DB) (now : ℕ) (req : TrackReq) (reqStatus : String) :
    DB :=
  let step : DB × ℕ :=
    match db.flights.find? (fun f =>
        f.userId == req.userId && f.flightNumber == req.flightNumber &&
        f.flightDate == req.flightDate) with
    | some f =>
      let f' := { f with
        status := reqStatus
        compensationEligible := req.eligible }
      let db' := { db with
        flights := db.flights.map (fun g => if g.id == f.id then f' else g) }
      if f.status != reqStatus && reqStatus == "completed" then
        (scheduleFollowupNotifications now f' db', f.id)
      else (db', f.id)
    | none =>
      ({ db with
        flights := db.flights ++
          [{ id := db.nextId, userId := req.userId,
             flightNumber := req.flightNumber, flightDate := req.flightDate,
             status := reqStatus, compensationEligible := req.eligible }],
        nextId := db.nextId + 1 }, db.nextId)
  let db1 := step.1
  let fid := step.2
  if reqStatus == "completed" && req.eligible then
    insertNotification db1 (fun i =>
      { id := i, userId := req.userId, flightId := some fid,
        type := "flight_result",
        subject := "Your " ++ req.flightNumber ++ " flight qualifies for " ++
          req.compensationCurrency ++ toString req.compensationAmount ++
          " compensation!",
        templateUsed := "flight_result_eligible",
        status := "pending", sentAt := none, externalId := none,
        scheduledFor := now })
  else db1

/-! ## Dispatcher (api/cron/send-notifications.ts) -/

/-- The `pending_notifications` view (schema.sql lines 268–282): pending
status, due (`scheduled_for <= NOW()`), inner-joined owning user not
soft-deleted and with `email_verified = TRUE` — the verified condition is
applied to every row regardless of kind. -/
def pendingView (db : DB) (now : ℕ) : List Notification :=
  db.notifications.filter (fun n =>
    n.status == "pending" && decide (n.scheduledFor ≤ now) &&
      (match db.users.find? (fun u => u.id == n.userId) with
       | some u => !u.deleted && u.emailVerified
       | none => false))

/-- Dispatcher selection: read the pending view with `limit(50)`. -/
def selectBatch (db : DB) (now : ℕ) : List Notification :=
  (pendingView db now).take 50

/-- Template table of send-notifications.ts (keys of `templates`), including
the legacy `email_verification` → `verification` alias the loop applies. -/
def templateKnown (templateUsed : String) : Bool :=
  let t := if templateUsed == "email_verification" then "verification"
    else templateUsed
  t == "verification" || t == "flight_result_eligible" ||
    t == "followup_donation" || t == "followup_donation_final"

/-- Outcome of one external delivery attempt (`resend.emails.send`). -/
inductive SendOutcome
  | ok (extId : String)
  | err
deriving Repr, DecidableEq

/-- The structured batch summary of the dispatcher response. -/
structure Summary where
  processed : ℕ
  sent : ℕ
  failed : ℕ
  skipped : ℕ
deriving Repr, DecidableEq

/-- The possible HTTP responses of the dispatcher: 401 unauthorized, 500 when the
selection query errors, 200 with a plain message when no records are due, and
200 with the structured summary otherwise. -/
inductive HandlerResult
  | unauthorized
  | selectionError
  | noPending
  | summary (s : Summary)
deriving Repr, DecidableEq

/-- HTTP status code of each dispatcher response. -/
def statusCode : HandlerResult → ℕ
  | .unauthorized => 401
  | .selectionError => 500
  | .noPending => 200
  | .summary _ => 200

/-- `UPDATE notifications SET ... WHERE id = i`. -/
def updateNotif (db : DB) (i : ℕ) (f : Notification → Notification) : DB :=
  { db with notifications :=
      db.notifications.map (fun n => if n.id == i then f n else n) }

/-- The sent-path update: status becomes `sent`, `sent_at = now`, `external_id`
set to the delivery id. -/
def markSent (now : ℕ) (e : String) (n : Notification) : Notification :=
  { n with status := "sent", sentAt := some now, externalId := some e }

/-- The failure-path update: status becomes `failed`, nothing else. -/
def markFailed (n : Notification) : Notification :=
  { n with status := "failed" }

/-- Accumulator of the dispatcher loop: the three counters plus the database
as mutated so far (the update of each record commits independently). -/
structure BatchAcc where
  sent : ℕ
  failed : ℕ
  skipped : ℕ
  db : DB
deriving Repr, DecidableEq

/-- One iteration of the dispatcher loop: unknown template → count in
`skipped`, no status write, continue; otherwise attempt delivery and write
`sent` (with `sent_at` and external id) or `failed`. -/
def processOne (now : ℕ) (send : Notification → SendOutcome)
    (acc : BatchAcc) (n : Notification) : BatchAcc :=
  if templateKnown n.templateUsed then
    match send n with
    | .ok e =>
      { acc with
        sent := acc.sent + 1
        db := updateNotif acc.db n.id (markSent now e) }
    | .err =>
      { acc with
        failed := acc.failed + 1
        db := updateNotif acc.db n.id markFailed }
  else
    { acc with skipped := acc.skipped + 1 }

/-- The per-record loop of the dispatcher over the selected batch. -/
def processBatch (now : ℕ) (send : Notification → SendOutcome) (db : DB)
    (batch : List Notification) : BatchAcc :=
  batch.foldl (processOne now send) ⟨0, 0, 0, db⟩

/-- Core of the send-notifications handler, from the authorization check on:
reject unauthorized callers with 401; surface a failing selection query as
500; answer 200 with a plain message when nothing is due; otherwise process
the batch and answer 200 with the structured summary
(`processed = batch length`).  The external delivery attempt is abstracted as
the `send` oracle. -/
def runDispatcher (db : DB) (now : ℕ) (authorized selectionOk : Bool)
    (send : Notification → SendOutcome) : HandlerResult × DB :=
  if !authorized then (.unauthorized, db)
  else if !selectionOk then (.selectionError, db)
  else
    let batch := selectBatch db now
    if batch.isEmpty then (.noPending, db)
    else
      let acc := processBatch now send db batch
      (.summary ⟨batch.length, acc.sent, acc.failed, acc.skipped⟩, acc.db)

/-- `find?` lookup of a notification row by id. -/
def getNotif (db : DB) (i : ℕ) : Option Notification :=
  db.notifications.find? (fun n => n.id == i)

/-! ## Concrete states used by counterexamples and witnesses -/

/-- A verified live user. -/
def user1 : User := { id := 1, emailVerified := true, deleted := false }

/-- A user who has not yet verified their email. -/
def userUnverified : User :=
  { id := 1, emailVerified := false, deleted := false }

/-- A tracked flight still in `tracking` with an eligible stored verdict. -/
def flightT : Flight :=
  { id := 2, userId := 1, flightNumber := "FR1234",
    flightDate := "2025-01-01", status := "tracking",
    compensationEligible := true }

/-- State with one eligible tracked flight and no notifications. -/
def db0 : DB :=
  { users := [user1], flights := [flightT], notifications := [], nextId := 3 }

/-- The track-flight request matching `flightT`. -/
def req0 : TrackReq :=
  { userId := 1, flightNumber := "FR1234", flightDate := "2025-01-01",
    eligible := true, compensationCurrency := "€",
    compensationAmount := 250 }

/-- A due pending verification notification for `userUnverified`. -/
def notifVerification : Notification :=
  { id := 5, userId := 1, flightId := none, type := "verification",
    subject := "Verify your email", templateUsed := "verification",
    status := "pending", sentAt := none, externalId := none,
    scheduledFor := 100 }

/-- State holding only the unverified user and their due verification
notification. -/
def dbVerif : DB :=
  { users := [userUnverified], flights := [],
    notifications := [notifVerification], nextId := 6 }

/-- A due pending result notification for the verified `user1`. -/
def notifDue : Notification :=
  { id := 7, userId := 1, flightId := some 2, type := "flight_result",
    subject := "Result", templateUsed := "flight_result_eligible",
    status := "pending", sentAt := none, externalId := none,
    scheduledFor := 100 }

/-- A due pending record whose template tag is unknown to the dispatcher. -/
def notifBadTemplate : Notification :=
  { id := 8, userId := 1, flightId := none, type := "flight_result",
    subject := "Result", templateUsed := "mystery_template",
    status := "pending", sentAt := none, externalId := none,
    scheduledFor := 100 }

/-- State with one deliverable record and one unknown-template record. -/
def dbBatch : DB :=
  { users := [user1], flights := [],
    notifications := [notifBadTemplate, notifDue], nextId := 9 }

/-- A delivery oracle that always succeeds with id `"re_1"`. -/
def sendOk : Notification → SendOutcome := fun _ => SendOutcome.ok "re_1"

end RyUnfair

namespace RyUnfair

/-- C1: full functional characterisation of the eligibility calculator on
non-negative inputs: delay under 180 minutes is never eligible and pays 0;
otherwise the flight is eligible, the currency is GBP exactly when either
jurisdiction is the UK (`"GB"`), and the amount follows the distance/delay
table 250/220, 400/350, 300/260, 600/520. -/
theorem calculateCompensation_spec (d : ℚ) (delay : ℤ)
    (dep arr : String) (_hd : 0 ≤ d) (_hdl : 0 ≤ delay) :
    (delay < 180 →
      (calculateCompensation d delay dep arr).eligible = false ∧
      (calculateCompensation d delay dep arr).amount = 0) ∧
    (180 ≤ delay →
      (calculateCompensation d delay dep arr).eligible = true ∧
      (calculateCompensation d delay dep arr).currency =
        (if dep == "GB" || arr == "GB" then Currency.gbp else Currency.eur) ∧
      (d < 1500 →
        (calculateCompensation d delay dep arr).amount =
          (if dep == "GB" || arr == "GB" then 220 else 250)) ∧
      (1500 ≤ d → d ≤ 3500 →
        (calculateCompensation d delay dep arr).amount =
          (if dep == "GB" || arr == "GB" then 350 else 400)) ∧
      (3500 < d → delay < 240 →
        (calculateCompensation d delay dep arr).amount =
          (if dep == "GB" || arr == "GB" then 260 else 300)) ∧
      (3500 < d → 240 ≤ delay →
        (calculateCompensation d delay dep arr).amount =
          (if dep == "GB" || arr == "GB" then 520 else 600))) := by
  unfold calculateCompensation
  constructor
  · intro h
    simp [if_pos h]
  · intro h
    rw [if_neg (not_lt.mpr h)]
    refine ⟨rfl, rfl, ?_, ?_, ?_, ?_⟩
    · intro h1
      simp [if_pos h1]
    · intro h1 h2
      simp [not_lt.mpr h1, h2]
    · intro h1 h2
      simp [show ¬ d < 1500 by linarith, not_le.mpr h1, not_le.mpr h2]
    · intro h1 h2
      simp [show ¬ d < 1500 by linarith, not_le.mpr h1, h2]

/-- C1 witness: the theorem applied at distance 1000 km, delay 200 min,
FR → FR, yielding the 250 EUR short-haul verdict. -/
theorem calculateCompensation_spec_witness :
    (calculateCompensation 1000 200 "FR" "FR").eligible = true ∧
    (calculateCompensation 1000 200 "FR" "FR").currency =
      (if ("FR" == "GB" || "FR" == "GB") then Currency.gbp else Currency.eur) ∧
    (calculateCompensation 1000 200 "FR" "FR").amount =
      (if ("FR" == "GB" || "FR" == "GB") then 220 else 250) := by
  have h := (calculateCompensation_spec 1000 200 "FR" "FR"
    (by norm_num) (by norm_num)).2 (by norm_num)
  exact ⟨h.1, h.2.1, h.2.2.1 (by norm_num)⟩

/-- C3 counterexample: the calculator does not fail fast on negative input.
At distance −100 km with delay 200 min it silently returns a verdict — and an
eligible one (250 EUR, the under-1500 km tier) — rather than raising any
`InvalidInput` error; no error path exists in the source function at all. -/
theorem calculateCompensation_negative_returns_verdict :
    calculateCompensation (-100) 200 "FR" "FR" =
      { amount := 250, currency := Currency.eur, eligible := true } := by
  norm_num [calculateCompensation]
  decide

/-- C3 amended: the calculator performs no input validation and never raises
an error.  A negative delay simply falls under the 180-minute gate and yields
the not-eligible amount-0 verdict, and a negative distance with delay ≥ 180 is
silently treated as the under-1500 km tier. -/
theorem calculateCompensation_total_on_negatives (d : ℚ) (delay : ℤ)
    (dep arr : String) :
    (delay < 0 →
      calculateCompensation d delay dep arr =
        { amount := 0, currency := Currency.eur, eligible := false }) ∧
    (d < 0 → 180 ≤ delay →
      calculateCompensation d delay dep arr =
        { amount := if dep == "GB" || arr == "GB" then 220 else 250,
          currency := if dep == "GB" || arr == "GB" then Currency.gbp
            else Currency.eur,
          eligible := true }) := by
  constructor
  · intro h
    have h180 : delay < 180 := by omega
    simp [calculateCompensation, h180]
  · intro hdneg hdl
    have h1500 : d < 1500 := by linarith
    simp [calculateCompensation, not_lt.mpr hdl, h1500]

/-- C3 amended witness: the amended theorem applied at delay −30 min and at
distance −100 km, delay 200 min. -/
theorem calculateCompensation_total_on_negatives_witness :
    (calculateCompensation 1000 (-30) "FR" "FR" =
      { amount := 0, currency := Currency.eur, eligible := false }) ∧
    (calculateCompensation (-100) 200 "GB" "FR" =
      { amount := if "GB" == "GB" || "FR" == "GB" then 220 else 250,
        currency := if "GB" == "GB" || "FR" == "GB" then Currency.gbp
          else Currency.eur,
        eligible := true }) :=
  ⟨(calculateCompensation_total_on_negatives 1000 (-30) "FR" "FR").1
      (by norm_num),
   (calculateCompensation_total_on_negatives (-100) 200 "GB" "FR").2
      (by norm_num) (by norm_num)⟩

/-- C7: tier-boundary behaviour of the calculator.  With any delay ≥ 180,
distance exactly 1500 km and exactly 3500 km both pay 400 EUR / 350 GBP (the
middle tier); delay exactly 180 min makes any flight eligible; and delay
exactly 240 min on a 4000 km flight pays 600 EUR / 520 GBP. -/
theorem calculateCompensation_boundaries (delay : ℤ) (dep arr : String)
    (h : 180 ≤ delay) :
    ((calculateCompensation 1500 delay dep arr).amount =
      (if dep == "GB" || arr == "GB" then 350 else 400)) ∧
    ((calculateCompensation 3500 delay dep arr).amount =
      (if dep == "GB" || arr == "GB" then 350 else 400)) ∧
    (∀ d : ℚ, (calculateCompensation d 180 dep arr).eligible = true) ∧
    ((calculateCompensation 4000 240 dep arr).amount =
      (if dep == "GB" || arr == "GB" then 520 else 600)) := by
  refine ⟨?_, ?_, ?_, ?_⟩
  · norm_num [calculateCompensation, not_lt.mpr h]
  · norm_num [calculateCompensation, not_lt.mpr h]
  · intro d
    norm_num [calculateCompensation]
  · norm_num [calculateCompensation]

/-- C7 witness: the boundary theorem applied at delay 180, STN → DUB
(a UK flight, so the GBP column applies). -/
theorem calculateCompensation_boundaries_witness :
    ((calculateCompensation 1500 180 "GB" "IE").amount =
      (if "GB" == "GB" || "IE" == "GB" then 350 else 400)) ∧
    ((calculateCompensation 3500 180 "GB" "IE").amount =
      (if "GB" == "GB" || "IE" == "GB" then 350 else 400)) ∧
    (∀ d : ℚ, (calculateCompensation d 180 "GB" "IE").eligible = true) ∧
    ((calculateCompensation 4000 240 "GB" "IE").amount =
      (if "GB" == "GB" || "IE" == "GB" then 520 else 600)) :=
  calculateCompensation_boundaries 180 "GB" "IE" (by norm_num)

/-- C2 counterexample: the tracking → completed transition on an eligible
flight with no prior notifications creates only TWO notification records, not
three: no `flight_result` (eligibility result) record is created by the
transition, and in particular nothing is scheduled immediately (at `now`). -/
theorem updateFlightStatus_only_two_records :
    ((updateFlightStatus db0 1000 2 "completed").notifications.length = 2) ∧
    ((updateFlightStatus db0 1000 2 "completed").notifications.filter
      (fun n => n.type == "flight_result")).length = 0 ∧
    ((updateFlightStatus db0 1000 2 "completed").notifications.filter
      (fun n => n.scheduledFor == 1000)).length = 0 := by
  decide

/-- C2 amended: the database trigger on the tracking → completed transition of
an eligible flight unconditionally appends exactly two notification records —
`followup_15d` scheduled at now + 15 days and `followup_30d` at now + 30 days
— with no already-present check (the list they are appended to is arbitrary);
the immediate eligibility-result record is not created by this transition but
separately by the track-flight API handler. -/
theorem updateFlightStatus_appends_followups (db : DB) (now fid : ℕ)
    (f : Flight) (hf : db.flights.find? (fun g => g.id == fid) = some f)
    (ht : f.status = "tracking") (he : f.compensationEligible = true) :
    (updateFlightStatus db now fid "completed").notifications =
      db.notifications ++
        [{ id := db.nextId, userId := f.userId, flightId := some f.id,
           type := "followup_15d",
           subject := "Did RyUnfair help you get compensation?",
           templateUsed := "followup_donation",
           status := "pending", sentAt := none, externalId := none,
           scheduledFor := now + 15 * day },
         { id := db.nextId + 1, userId := f.userId, flightId := some f.id,
           type := "followup_30d",
           subject := "Last chance: Help us help others",
           templateUsed := "followup_donation_final",
           status := "pending", sentAt := none, externalId := none,
           scheduledFor := now + 30 * day }] := by
  unfold updateFlightStatus
  rw [hf]
  simp [ht, he, scheduleFollowupNotifications, insertNotification]

/-- C2 amended witness: the amended theorem applied to `db0` at time 1000. -/
theorem updateFlightStatus_appends_followups_witness :
    (updateFlightStatus db0 1000 2 "completed").notifications =
      db0.notifications ++
        [{ id := db0.nextId, userId := flightT.userId,
           flightId := some flightT.id,
           type := "followup_15d",
           subject := "Did RyUnfair help you get compensation?",
           templateUsed := "followup_donation",
           status := "pending", sentAt := none, externalId := none,
           scheduledFor := 1000 + 15 * day },
         { id := db0.nextId + 1, userId := flightT.userId,
           flightId := some flightT.id,
           type := "followup_30d",
           subject := "Last chance: Help us help others",
           templateUsed := "followup_donation_final",
           status := "pending", sentAt := none, externalId := none,
           scheduledFor := 1000 + 30 * day }] :=
  updateFlightStatus_appends_followups db0 1000 2 flightT (by decide)
    (by decide) (by decide)

/-- C4 counterexample: performing the API completion transition twice on the
same flight yields TWO `flight_result` notification records, not exactly one —
no uniqueness constraint or guarded upsert on (flight, kind) exists. -/
theorem trackFlight_twice_duplicates_result :
    ((trackFlight (trackFlight db0 1000 req0 "completed") 2000 req0
        "completed").notifications.filter
      (fun n => n.type == "flight_result")).length = 2 := by
  decide

/-- C4 amended: there is no uniqueness constraint on (flight, kind).  Starting
from a flight in `tracking`, calling the track-flight completion twice
appends, in order: the two follow-up records from the status-change trigger
(which does not refire while the status stays completed), the first
`flight_result` record, and then a duplicate second `flight_result` record —
so the completion call is not idempotent for the eligibility-result kind. -/
theorem trackFlight_twice_spec (us : List User) (ns : List Notification)
    (fls : List Flight) (k now1 now2 : ℕ) (f : Flight) (req : TrackReq)
    (hfls : fls = [f])
    (h1 : f.userId = req.userId) (h2 : f.flightNumber = req.flightNumber)
    (h3 : f.flightDate = req.flightDate) (h4 : f.status = "tracking")
    (h5 : req.eligible = true) :
    (trackFlight (trackFlight (DB.mk us fls ns k) now1 req "completed")
        now2 req "completed").notifications =
      ns ++
        [{ id := k, userId := f.userId, flightId := some f.id,
           type := "followup_15d",
           subject := "Did RyUnfair help you get compensation?",
           templateUsed := "followup_donation",
           status := "pending", sentAt := none, externalId := none,
           scheduledFor := now1 + 15 * day },
         { id := k + 1, userId := f.userId, flightId := some f.id,
           type := "followup_30d",
           subject := "Last chance: Help us help others",
           templateUsed := "followup_donation_final",
           status := "pending", sentAt := none, externalId := none,
           scheduledFor := now1 + 30 * day },
         { id := k + 2, userId := req.userId, flightId := some f.id,
           type := "flight_result",
           subject := "Your " ++ req.flightNumber ++
             " flight qualifies for " ++ req.compensationCurrency ++
             toString req.compensationAmount ++ " compensation!",
           templateUsed := "flight_result_eligible",
           status := "pending", sentAt := none, externalId := none,
           scheduledFor := now1 },
         { id := k + 3, userId := req.userId, flightId := some f.id,
           type := "flight_result",
           subject := "Your " ++ req.flightNumber ++
             " flight qualifies for " ++ req.compensationCurrency ++
             toString req.compensationAmount ++ " compensation!",
           templateUsed := "flight_result_eligible",
           status := "pending", sentAt := none, externalId := none,
           scheduledFor := now2 }] := by
  subst hfls
  simp [trackFlight, h1, h2, h3, h4, h5, scheduleFollowupNotifications,
    insertNotification]

/-- C4 amended witness: the double-completion theorem applied to `db0`. -/
theorem trackFlight_twice_spec_witness :
    (trackFlight (trackFlight (DB.mk [user1] [flightT] [] 3) 1000 req0
        "completed") 2000 req0 "completed").notifications =
      [] ++
        [{ id := 3, userId := flightT.userId, flightId := some flightT.id,
           type := "followup_15d",
           subject := "Did RyUnfair help you get compensation?",
           templateUsed := "followup_donation",
           status := "pending", sentAt := none, externalId := none,
           scheduledFor := 1000 + 15 * day },
         { id := 3 + 1, userId := flightT.userId, flightId := some flightT.id,
           type := "followup_30d",
           subject := "Last chance: Help us help others",
           templateUsed := "followup_donation_final",
           status := "pending", sentAt := none, externalId := none,
           scheduledFor := 1000 + 30 * day },
         { id := 3 + 2, userId := req0.userId, flightId := some flightT.id,
           type := "flight_result",
           subject := "Your " ++ req0.flightNumber ++
             " flight qualifies for " ++ req0.compensationCurrency ++
             toString req0.compensationAmount ++ " compensation!",
           templateUsed := "flight_result_eligible",
           status := "pending", sentAt := none, externalId := none,
           scheduledFor := 1000 },
         { id := 3 + 3, userId := req0.userId, flightId := some flightT.id,
           type := "flight_result",
           subject := "Your " ++ req0.flightNumber ++
             " flight qualifies for " ++ req0.compensationCurrency ++
             toString req0.compensationAmount ++ " compensation!",
           templateUsed := "flight_result_eligible",
           status := "pending", sentAt := none, externalId := none,
           scheduledFor := 2000 }] :=
  trackFlight_twice_spec [user1] [] [flightT] 3 1000 2000 flightT req0
    rfl (by decide) (by decide) (by decide) (by decide) (by decide)

/-- C5 counterexample: a pending, due `verification` notification whose owning
user is live (not deleted) but not yet email-verified is NOT selected by the
dispatcher — the view applies the email-verified condition to every kind, so
the claimed verification-kind exemption does not exist. -/
theorem verification_excluded_when_unverified :
    notifVerification.type = "verification" ∧
    notifVerification.status = "pending" ∧
    notifVerification.scheduledFor ≤ 1000 ∧
    userUnverified ∈ dbVerif.users ∧
    userUnverified.id = notifVerification.userId ∧
    userUnverified.deleted = false ∧
    notifVerification ∈ dbVerif.notifications ∧
    selectBatch dbVerif 1000 = [] := by
  decide

/-- C5 amended: each dispatcher run selects at most 50 records, and a record
is in the selection view exactly when its status is pending, it is due, and
its owning user exists, is not deleted, AND has a verified email — the
verified-email condition applies to all kinds, verification included. -/
theorem selectBatch_spec (db : DB) (now : ℕ)
    (hu : (db.users.map User.id).Nodup) :
    (selectBatch db now).length ≤ 50 ∧
    (∀ n, n ∈ pendingView db now ↔
      (n ∈ db.notifications ∧ n.status = "pending" ∧ n.scheduledFor ≤ now ∧
        ∃ u, u ∈ db.users ∧ u.id = n.userId ∧ u.deleted = false ∧
          u.emailVerified = true)) ∧
    (∀ n, n ∈ selectBatch db now → n ∈ pendingView db now) := by
  refine ⟨?_, ?_, ?_⟩
  · have h := List.length_take 50 (pendingView db now)
    simp only [selectBatch, h]
    exact Nat.min_le_left _ _
  · intro n
    simp only [pendingView, List.mem_filter, Bool.and_eq_true, beq_iff_eq,
      decide_eq_true_eq]
    constructor
    · rintro ⟨hmem, ⟨⟨hst, hdue⟩, hmatch⟩⟩
      refine ⟨hmem, hst, hdue, ?_⟩
      rcases hfind : db.users.find? (fun u => u.id == n.userId) with _ | u
      · rw [hfind] at hmatch
        simp at hmatch
      · rw [hfind] at hmatch
        simp only [Bool.and_eq_true, Bool.not_eq_true'] at hmatch
        exact ⟨u, List.mem_of_find?_eq_some hfind,
          by simpa using List.find?_some hfind, hmatch.1, hmatch.2⟩
    · rintro ⟨hmem, hst, hdue, u, humem, hid, hdel, hver⟩
      refine ⟨hmem, ⟨hst, hdue⟩, ?_⟩
      have hsome : (db.users.find? (fun v => v.id == n.userId)).isSome := by
        rw [List.find?_isSome]
        exact ⟨u, humem, by simp [hid]⟩
      rcases hfind : db.users.find? (fun v => v.id == n.userId) with _ | v
      · rw [hfind] at hsome
        simp at hsome
      · have hvid : v.id = n.userId := by
          simpa using List.find?_some hfind
        have hvu : v = u :=
          List.inj_on_of_nodup_map hu (List.mem_of_find?_eq_some hfind)
            humem (by rw [hvid, hid])
        rw [hfind]
        subst hvu
        simp [hdel, hver]
  · intro n h
    exact List.take_subset _ _ h

/-- C5 amended witness: the selection characterisation applied to `dbVerif`
at time 1000. -/
theorem selectBatch_spec_witness :
    (selectBatch dbVerif 1000).length ≤ 50 ∧
    (∀ n, n ∈ pendingView dbVerif 1000 ↔
      (n ∈ dbVerif.notifications ∧ n.status = "pending" ∧
        n.scheduledFor ≤ 1000 ∧
        ∃ u, u ∈ dbVerif.users ∧ u.id = n.userId ∧ u.deleted = false ∧
          u.emailVerified = true)) ∧
    (∀ n, n ∈ selectBatch dbVerif 1000 → n ∈ pendingView dbVerif 1000) :=
  selectBatch_spec dbVerif 1000 (by decide)

/-- C6 counterexample: running the dispatcher when nothing is due answers
with the plain no-pending message response, not with the structured summary
`{processed := 0, sent := 0, failed := 0, skipped := 0}` the claim expects. -/
theorem dispatcher_empty_returns_message :
    (runDispatcher db0 1000 true true sendOk).fst = HandlerResult.noPending ∧
    (runDispatcher db0 1000 true true sendOk).fst ≠
      HandlerResult.summary
        { processed := 0, sent := 0, failed := 0, skipped := 0 } := by
  decide

/-- C6 amended: an authorized dispatcher run whose selection succeeds but
finds no due pending notification returns HTTP 200 with the no-pending
message body — no summary object — and leaves the database unchanged. -/
theorem dispatcher_no_due_no_summary (db : DB) (now : ℕ)
    (send : Notification → SendOutcome) (h : selectBatch db now = []) :
    runDispatcher db now true true send = (HandlerResult.noPending, db) ∧
    statusCode (runDispatcher db now true true send).fst = 200 := by
  constructor
  · simp [runDispatcher, h]
  · simp [runDispatcher, h, statusCode]

/-- C6 amended witness: the no-due theorem applied to `db0` at time 1000. -/
theorem dispatcher_no_due_no_summary_witness :
    runDispatcher db0 1000 true true sendOk =
      (HandlerResult.noPending, db0) ∧
    statusCode (runDispatcher db0 1000 true true sendOk).fst = 200 :=
  dispatcher_no_due_no_summary db0 1000 sendOk (by decide)

/-! ## Helper lemmas about the dispatcher loop -/

/-- `markSent` leaves the row id unchanged. -/
theorem markSent_id (now : ℕ) (e : String) (m : Notification) :
    (markSent now e m).id = m.id := rfl

/-- `markFailed` leaves the row id unchanged. -/
theorem markFailed_id (m : Notification) : (markFailed m).id = m.id := rfl

/-- Each loop iteration increments `sent + failed` exactly when the template
is known. -/
theorem processOne_sent_failed (now : ℕ) (send : Notification → SendOutcome)
    (acc : BatchAcc) (n : Notification) :
    (processOne now send acc n).sent + (processOne now send acc n).failed =
      acc.sent + acc.failed +
        (if templateKnown n.templateUsed then 1 else 0) := by
  unfold processOne
  by_cases h : templateKnown n.templateUsed
  · cases hsn : send n <;> simp [h, hsn] <;> omega
  · simp [h]

/-- Each loop iteration increments `skipped` exactly when the template is
unknown. -/
theorem processOne_skipped (now : ℕ) (send : Notification → SendOutcome)
    (acc : BatchAcc) (n : Notification) :
    (processOne now send acc n).skipped =
      acc.skipped + (if templateKnown n.templateUsed then 0 else 1) := by
  unfold processOne
  by_cases h : templateKnown n.templateUsed
  · cases hsn : send n <;> simp [h, hsn]
  · simp [h]

/-- The database effect of one loop iteration. -/
theorem processOne_db_eq (now : ℕ) (send : Notification → SendOutcome)
    (acc : BatchAcc) (n : Notification) :
    (processOne now send acc n).db =
      if templateKnown n.templateUsed then
        (match send n with
         | SendOutcome.ok e => updateNotif acc.db n.id (markSent now e)
         | SendOutcome.err => updateNotif acc.db n.id markFailed)
      else acc.db := by
  unfold processOne
  by_cases h : templateKnown n.templateUsed
  · cases hsn : send n <;> simp [h, hsn]
  · simp [h]

/-- Loop-counter invariant over the whole batch. -/
theorem foldl_counters (now : ℕ) (send : Notification → SendOutcome)
    (batch : List Notification) :
    ∀ acc : BatchAcc,
      (batch.foldl (processOne now send) acc).sent +
        (batch.foldl (processOne now send) acc).failed =
        acc.sent + acc.failed +
          batch.countP (fun m => templateKnown m.templateUsed) ∧
      (batch.foldl (processOne now send) acc).skipped =
        acc.skipped +
          batch.countP (fun m => !templateKnown m.templateUsed) := by
  induction batch with
  | nil => intro acc; simp
  | cons a t ih =>
    intro acc
    rw [List.foldl_cons]
    rcases ih (processOne now send acc a) with ⟨ih1, ih2⟩
    constructor
    · rw [ih1, processOne_sent_failed, List.countP_cons]
      by_cases h : templateKnown a.templateUsed
      · simp [h]
        omega
      · simp [h]
    · rw [ih2, processOne_skipped, List.countP_cons]
      by_cases h : templateKnown a.templateUsed
      · simp [h]
      · simp [h]
        omega

/-- Row lookup after an id-preserving keyed map update. -/
theorem find?_id_update (l : List Notification) (j i : ℕ)
    (f : Notification → Notification) (hf : ∀ m, (f m).id = m.id) :
    (l.map (fun m => if m.id == j then f m else m)).find?
        (fun m => m.id == i) =
      if i = j then (l.find? (fun m => m.id == i)).map f
      else l.find? (fun m => m.id == i) := by
  induction l with
  | nil => simp only [List.map_nil, List.find?_nil, Option.map_none]
           split <;> rfl
  | cons a t ih =>
    rw [List.map_cons]
    by_cases hai : a.id = i
    · by_cases haj : a.id = j
      · have hij : i = j := by rw [← hai, haj]
        subst hij
        rw [if_pos rfl, show (if (a.id == i) = true then f a else a) = f a
            by simp [haj],
          List.find?_cons_of_pos _ (by simp [hf, hai]),
          List.find?_cons_of_pos _ (by simp [hai])]
        rfl
      · have hij : ¬ i = j := fun h => haj (hai.trans h)
        rw [if_neg hij, show (if (a.id == j) = true then f a else a) = a
            by simp [haj],
          List.find?_cons_of_pos _ (by simp [hai]),
          List.find?_cons_of_pos _ (by simp [hai])]
    · by_cases haj : a.id = j
      · rw [show (if (a.id == j) = true then f a else a) = f a
            by simp [haj],
          List.find?_cons_of_neg _ (by simp [hf, hai]),
          List.find?_cons_of_neg _ (by simp [hai]), ih]
      · rw [show (if (a.id == j) = true then f a else a) = a
            by simp [haj],
          List.find?_cons_of_neg _ (by simp [hai]),
          List.find?_cons_of_neg _ (by simp [hai]), ih]

/-- Row lookup after `updateNotif`: the targeted id is mapped through the
update, every other id is untouched. -/
theorem getNotif_updateNotif (db : DB) (j i : ℕ)
    (f : Notification → Notification) (hf : ∀ m, (f m).id = m.id) :
    getNotif (updateNotif db j f) i =
      if i = j then (getNotif db i).map f else getNotif db i := by
  unfold getNotif updateNotif
  exact find?_id_update db.notifications j i f hf

/-- Under duplicate-free ids, looking a member row up by id finds it. -/
theorem find?_eq_some_of_mem_nodup (l : List Notification) (n : Notification)
    (hmem : n ∈ l) (hnd : (l.map Notification.id).Nodup) :
    l.find? (fun m => m.id == n.id) = some n := by
  induction l with
  | nil => cases hmem
  | cons a t ih =>
    rw [List.map_cons, List.nodup_cons] at hnd
    rcases List.mem_cons.mp hmem with rfl | hmem'
    · rw [List.find?_cons_of_pos _ (by simp)]
    · have hne : ¬ (a.id == n.id) = true := by
        simp only [beq_iff_eq]
        intro h
        exact hnd.1 (h ▸ List.mem_map_of_mem Notification.id hmem')
      rw [show List.find? (fun m => m.id == n.id) (a :: t) =
          List.find? (fun m => m.id == n.id) t from
        List.find?_cons_of_neg t hne]
      exact ih hmem' hnd.2

/-- Under duplicate-free ids, `getNotif` on a member row returns it. -/
theorem getNotif_of_mem (db : DB) (n : Notification)
    (hmem : n ∈ db.notifications)
    (hnd : (db.notifications.map Notification.id).Nodup) :
    getNotif db n.id = some n :=
  find?_eq_some_of_mem_nodup db.notifications n hmem hnd

/-- Rows whose id does not occur in the batch are untouched by the loop. -/
theorem foldl_db_untouched (now : ℕ) (send : Notification → SendOutcome)
    (batch : List Notification) :
    ∀ (acc : BatchAcc) (i : ℕ), (∀ m ∈ batch, m.id ≠ i) →
      getNotif (batch.foldl (processOne now send) acc).db i =
        getNotif acc.db i := by
  induction batch with
  | nil => intro acc i _; rfl
  | cons a t ih =>
    intro acc i h
    rw [List.foldl_cons,
      ih _ _ (fun m hm => h m (List.mem_cons_of_mem _ hm))]
    have ha : ¬ i = a.id := fun hia => h a (List.mem_cons_self _ _) hia.symm
    rw [processOne_db_eq]
    by_cases hk : templateKnown a.templateUsed
    · cases hsa : send a <;>
        simp [hk, hsa, getNotif_updateNotif _ _ _ _ (markSent_id now _),
          getNotif_updateNotif _ _ _ _ markFailed_id, ha]
    · simp [hk]

/-- The final state of a batch member row: written through `markSent` or
`markFailed` when its template is known, untouched otherwise. -/
theorem processBatch_db_mem (now : ℕ) (send : Notification → SendOutcome)
    (db : DB) (batch : List Notification)
    (hnd : (batch.map Notification.id).Nodup) (n : Notification)
    (hmem : n ∈ batch) :
    getNotif (processBatch now send db batch).db n.id =
      if templateKnown n.templateUsed then
        (match send n with
         | SendOutcome.ok e => (getNotif db n.id).map (markSent now e)
         | SendOutcome.err => (getNotif db n.id).map markFailed)
      else getNotif db n.id := by
  obtain ⟨s, t, rfl⟩ := List.append_of_mem hmem
  rw [List.map_append, List.map_cons, List.nodup_append] at hnd
  rcases hnd with ⟨hs_nd, ht_nd, hdisj⟩
  rw [List.nodup_cons] at ht_nd
  have hs : ∀ m ∈ s, m.id ≠ n.id := by
    intro m hm he
    exact hdisj (List.mem_map_of_mem Notification.id hm)
      (by simp [he])
  have ht : ∀ m ∈ t, m.id ≠ n.id := by
    intro m hm he
    exact ht_nd.1 (he ▸ List.mem_map_of_mem Notification.id hm)
  unfold processBatch
  rw [List.foldl_append, List.foldl_cons,
    foldl_db_untouched now send t _ _ ht]
  have hmid : getNotif (s.foldl (processOne now send)
      (BatchAcc.mk 0 0 0 db)).db n.id = getNotif db n.id :=
    foldl_db_untouched now send s _ _ hs
  rw [processOne_db_eq]
  by_cases hk : templateKnown n.templateUsed
  · cases hsn : send n <;>
      simp [hk, hsn, getNotif_updateNotif _ _ _ _ (markSent_id now _),
        getNotif_updateNotif _ _ _ _ markFailed_id, hmid]
  · simp [hk, hmid]

/-- The selected batch is a sublist of the notifications table. -/
theorem selectBatch_sublist (db : DB) (now : ℕ) :
    List.Sublist (selectBatch db now) db.notifications :=
  (List.take_sublist _ _).trans (List.filter_sublist _)

/-- A selected row has pending status. -/
theorem status_of_mem_view (db : DB) (now : ℕ) (n : Notification)
    (h : n ∈ pendingView db now) : n.status = "pending" := by
  rw [pendingView, List.mem_filter] at h
  have := h.2
  simp only [Bool.and_eq_true, beq_iff_eq] at this
  exact this.1.1

/-- Every loop iteration settles exactly one record, so the three counters
add up to the batch length. -/
theorem foldl_total (now : ℕ) (send : Notification → SendOutcome)
    (batch : List Notification) :
    ∀ acc : BatchAcc,
      (batch.foldl (processOne now send) acc).sent +
        (batch.foldl (processOne now send) acc).failed +
        (batch.foldl (processOne now send) acc).skipped =
        acc.sent + acc.failed + acc.skipped + batch.length := by
  induction batch with
  | nil => intro acc; simp
  | cons a t ih =>
    intro acc
    rw [List.foldl_cons, ih (processOne now send acc a)]
    have h1 := processOne_sent_failed now send acc a
    have h2 := processOne_skipped now send acc a
    by_cases h : templateKnown a.templateUsed <;>
      simp only [h, if_true, if_false] at h1 h2 <;> simp [h1, h2] <;> omega

/-- The ids of the selected batch are duplicate-free whenever the ids of the
notifications table are. -/
theorem selectBatch_ids_nodup (db : DB) (now : ℕ)
    (hnd : (db.notifications.map Notification.id).Nodup) :
    ((selectBatch db now).map Notification.id).Nodup :=
  List.Nodup.sublist
    (List.Sublist.map Notification.id (selectBatch_sublist db now)) hnd

/-- C8: a selected record whose template tag is unknown is skipped without
failing the batch: `skipped` counts exactly the unknown-template records, the
record itself is left untouched in the table (its status still pending), every
known-template record is still attempted (counted in `sent` or `failed`), and
the run still answers with the structured summary. -/
theorem dispatcher_skips_unknown_template (db : DB) (now : ℕ)
    (send : Notification → SendOutcome) (n : Notification)
    (hnd : (db.notifications.map Notification.id).Nodup)
    (hmem : n ∈ selectBatch db now)
    (hunk : templateKnown n.templateUsed = false) :
    (processBatch now send db (selectBatch db now)).skipped =
      (selectBatch db now).countP
        (fun m => !templateKnown m.templateUsed) ∧
    getNotif (processBatch now send db (selectBatch db now)).db n.id =
      some n ∧
    n.status = "pending" ∧
    (processBatch now send db (selectBatch db now)).sent +
      (processBatch now send db (selectBatch db now)).failed =
      (selectBatch db now).countP (fun m => templateKnown m.templateUsed) ∧
    (runDispatcher db now true true send).fst =
      HandlerResult.summary
        { processed := (selectBatch db now).length,
          sent := (processBatch now send db (selectBatch db now)).sent,
          failed := (processBatch now send db (selectBatch db now)).failed,
          skipped :=
            (processBatch now send db (selectBatch db now)).skipped } := by
  have hcnt := foldl_counters now send (selectBatch db now)
    (BatchAcc.mk 0 0 0 db)
  have hmemdb : n ∈ db.notifications :=
    (selectBatch_sublist db now).subset hmem
  have hview : n ∈ pendingView db now :=
    List.take_subset _ _ hmem
  have hne : selectBatch db now ≠ [] := List.ne_nil_of_mem hmem
  have hemp : (selectBatch db now).isEmpty = false :=
    List.isEmpty_eq_false.mpr hne
  refine ⟨?_, ?_, ?_, ?_, ?_⟩
  · have := hcnt.2
    simpa [processBatch] using this
  · rw [processBatch_db_mem now send db (selectBatch db now)
      (selectBatch_ids_nodup db now hnd) n hmem]
    simp [hunk, getNotif_of_mem db n hmemdb hnd]
  · exact status_of_mem_view db now n hview
  · have := hcnt.1
    simpa [processBatch] using this
  · simp [runDispatcher, hemp]

/-- C8 witness: the skip theorem applied to `dbBatch` (whose selected batch
holds the unknown-template record `notifBadTemplate` alongside a deliverable
one) at time 1000 with an always-succeeding provider. -/
theorem dispatcher_skips_unknown_template_witness :
    (processBatch 1000 sendOk dbBatch (selectBatch dbBatch 1000)).skipped =
      (selectBatch dbBatch 1000).countP
        (fun m => !templateKnown m.templateUsed) ∧
    getNotif (processBatch 1000 sendOk dbBatch
        (selectBatch dbBatch 1000)).db notifBadTemplate.id =
      some notifBadTemplate ∧
    notifBadTemplate.status = "pending" ∧
    (processBatch 1000 sendOk dbBatch (selectBatch dbBatch 1000)).sent +
      (processBatch 1000 sendOk dbBatch (selectBatch dbBatch 1000)).failed =
      (selectBatch dbBatch 1000).countP
        (fun m => templateKnown m.templateUsed) ∧
    (runDispatcher dbBatch 1000 true true sendOk).fst =
      HandlerResult.summary
        { processed := (selectBatch dbBatch 1000).length,
          sent := (processBatch 1000 sendOk dbBatch
            (selectBatch dbBatch 1000)).sent,
          failed := (processBatch 1000 sendOk dbBatch
            (selectBatch dbBatch 1000)).failed,
          skipped := (processBatch 1000 sendOk dbBatch
            (selectBatch dbBatch 1000)).skipped } :=
  dispatcher_skips_unknown_template dbBatch 1000 sendOk notifBadTemplate
    (by decide) (by decide) (by decide)

/-- C9: terminal delivery semantics of one dispatcher run.  A selected record
whose delivery succeeds ends as `sent` with `sent_at` and the external
delivery id recorded; one whose delivery fails ends as `failed`; `failed`
records are never selected by any later run; whenever the batch is nonempty
the call answers 200 with the structured summary — for every delivery oracle,
so in particular even when every individual send failed; and a non-200 status
arises exactly when the caller is unauthorized or the selection step failed. -/
theorem dispatcher_terminal_states (db : DB) (now : ℕ)
    (send : Notification → SendOutcome)
    (hnd : (db.notifications.map Notification.id).Nodup) :
    (∀ n e, n ∈ selectBatch db now → templateKnown n.templateUsed = true →
      send n = SendOutcome.ok e →
      getNotif (processBatch now send db (selectBatch db now)).db n.id =
        some (markSent now e n)) ∧
    (∀ n, n ∈ selectBatch db now → templateKnown n.templateUsed = true →
      send n = SendOutcome.err →
      getNotif (processBatch now send db (selectBatch db now)).db n.id =
        some (markFailed n)) ∧
    (∀ (db' : DB) (now' : ℕ) (m : Notification), m.status = "failed" →
      m ∉ selectBatch db' now') ∧
    (selectBatch db now ≠ [] →
      (runDispatcher db now true true send).fst =
        HandlerResult.summary
          { processed := (selectBatch db now).length,
            sent := (processBatch now send db (selectBatch db now)).sent,
            failed := (processBatch now send db (selectBatch db now)).failed,
            skipped :=
              (processBatch now send db (selectBatch db now)).skipped }) ∧
    (∀ authorized selectionOk : Bool,
      statusCode
          (runDispatcher db now authorized selectionOk send).fst ≠ 200 ↔
        (authorized = false ∨ selectionOk = false)) := by
  refine ⟨?_, ?_, ?_, ?_, ?_⟩
  · intro n e hmem hk hsn
    rw [processBatch_db_mem now send db (selectBatch db now)
      (selectBatch_ids_nodup db now hnd) n hmem]
    have hmemdb : n ∈ db.notifications :=
      (selectBatch_sublist db now).subset hmem
    simp [hk, hsn, getNotif_of_mem db n hmemdb hnd]
  · intro n hmem hk hsn
    rw [processBatch_db_mem now send db (selectBatch db now)
      (selectBatch_ids_nodup db now hnd) n hmem]
    have hmemdb : n ∈ db.notifications :=
      (selectBatch_sublist db now).subset hmem
    simp [hk, hsn, getNotif_of_mem db n hmemdb hnd]
  · intro db' now' m hfail hmem
    have hview : m ∈ pendingView db' now' := List.take_subset _ _ hmem
    have := status_of_mem_view db' now' m hview
    rw [hfail] at this
    exact absurd this (by decide)
  · intro hne
    have hemp : (selectBatch db now).isEmpty = false :=
      List.isEmpty_eq_false.mpr hne
    simp [runDispatcher, hemp]
  · intro authorized selectionOk
    cases authorized
    · simp [runDispatcher, statusCode]
    · cases selectionOk
      · simp [runDispatcher, statusCode]
      · rcases hb : (selectBatch db now).isEmpty with _ | _ <;>
          simp [runDispatcher, hb, statusCode]

/-- C9 witness: the terminal-state theorem applied to `dbBatch` at time 1000
with the always-succeeding provider. -/
theorem dispatcher_terminal_states_witness :
    (∀ n e, n ∈ selectBatch dbBatch 1000 →
      templateKnown n.templateUsed = true →
      sendOk n = SendOutcome.ok e →
      getNotif (processBatch 1000 sendOk dbBatch
          (selectBatch dbBatch 1000)).db n.id =
        some (markSent 1000 e n)) ∧
    (∀ n, n ∈ selectBatch dbBatch 1000 →
      templateKnown n.templateUsed = true →
      sendOk n = SendOutcome.err →
      getNotif (processBatch 1000 sendOk dbBatch
          (selectBatch dbBatch 1000)).db n.id =
        some (markFailed n)) ∧
    (∀ (db' : DB) (now' : ℕ) (m : Notification), m.status = "failed" →
      m ∉ selectBatch db' now') ∧
    (selectBatch dbBatch 1000 ≠ [] →
      (runDispatcher dbBatch 1000 true true sendOk).fst =
        HandlerResult.summary
          { processed := (selectBatch dbBatch 1000).length,
            sent := (processBatch 1000 sendOk dbBatch
              (selectBatch dbBatch 1000)).sent,
            failed := (processBatch 1000 sendOk dbBatch
              (selectBatch dbBatch 1000)).failed,
            skipped := (processBatch 1000 sendOk dbBatch
              (selectBatch dbBatch 1000)).skipped }) ∧
    (∀ authorized selectionOk : Bool,
      statusCode
          (runDispatcher dbBatch 1000 authorized selectionOk
            sendOk).fst ≠ 200 ↔
        (authorized = false ∨ selectionOk = false)) :=
  dispatcher_terminal_states dbBatch 1000 sendOk (by decide)

/-- C10: whenever a dispatcher run answers with the structured summary (which
it does exactly when selection succeeded and found at least one due record),
the summary partitions the batch: `processed = sent + failed + skipped`, with
`processed` positive and equal to the selected batch size. -/
theorem dispatcher_summary_partition (db : DB) (now : ℕ)
    (authorized selectionOk : Bool) (send : Notification → SendOutcome)
    (s : Summary)
    (h : (runDispatcher db now authorized selectionOk send).fst =
      HandlerResult.summary s) :
    s.processed = s.sent + s.failed + s.skipped ∧
    0 < s.processed ∧ s.processed = (selectBatch db now).length := by
  cases authorized
  · simp [runDispatcher] at h
  · cases selectionOk
    · simp [runDispatcher] at h
    · rcases hb : (selectBatch db now).isEmpty with _ | _
      · have key : (runDispatcher db now true true send).fst =
            HandlerResult.summary
              (Summary.mk (selectBatch db now).length
                (processBatch now send db (selectBatch db now)).sent
                (processBatch now send db (selectBatch db now)).failed
                (processBatch now send db
                  (selectBatch db now)).skipped) := by
          simp [runDispatcher, hb]
        rw [key] at h
        simp only [HandlerResult.summary.injEq] at h
        subst h
        refine ⟨?_, ?_, rfl⟩
        · have htot := foldl_total now send (selectBatch db now)
            (BatchAcc.mk 0 0 0 db)
          simpa [processBatch] using htot.symm
        · refine List.length_pos.mpr (fun hnil => ?_)
          rw [hnil] at hb
          simp at hb
      · simp [runDispatcher, hb] at h

/-- C10 witness: the partition theorem applied to the summary produced by the
run on `dbBatch` (one record sent, one skipped). -/
theorem dispatcher_summary_partition_witness :
    (Summary.mk 2 1 0 1).processed =
      (Summary.mk 2 1 0 1).sent + (Summary.mk 2 1 0 1).failed +
        (Summary.mk 2 1 0 1).skipped ∧
    0 < (Summary.mk 2 1 0 1).processed ∧
    (Summary.mk 2 1 0 1).processed = (selectBatch dbBatch 1000).length :=
  dispatcher_summary_partition dbBatch 1000 true true sendOk
    (Summary.mk 2 1 0 1) (by decide)

end RyUnfair
